import Mathlib

/-!
Shallow embedding of `src/getifaddrs.rs` (interface enumerator with a POSIX
backend, a Windows backend and a shared sockaddr decoder), together with
theorems settling the specification claims about it.

Modelling conventions:
* raw pointers that may be null become `Option`;
* the OS environment (the linked list returned by the native `getifaddrs`
  call, the per-attempt results of `GetAdaptersAddresses`, the adapter list
  found in the buffer) is passed in explicitly;
* a Rust `panic!` (including `Result::unwrap` on `Err`) becomes
  `Except.error` carrying the panic message;
* machine integers become `Nat`; every arithmetic step of the source already
  masks its operands (`& 255`, `& 65535`, shifts of masked values), so no
  extra wrap-around is needed;
* acquisition/release of the OS list/buffer is instrumented with counters so
  that resource claims can be stated.
-/

/-- Embedding of `IpAddr` from `std::net`: either four `u8` octets (V4) or
eight `u16` groups (V6), kept as `Nat`. -/
inductive IpAddr where
  | V4 (a b c d : Nat)
  | V6 (a b c d e f g h : Nat)
deriving DecidableEq, Repr

/-- Embedding of the `IfAddr` record (name, address, netmask, broadcast). -/
structure IfAddr where
  name : String
  addr : IpAddr
  netmask : IpAddr
  broadcast : IpAddr
deriving DecidableEq, Repr

/-- Embedding of `IfAddr::new()`: empty name, every address field set to the
sentinel `0.0.0.0`. -/
def IfAddr.new : IfAddr :=
  { name := ""
    addr := IpAddr.V4 0 0 0 0
    netmask := IpAddr.V4 0 0 0 0
    broadcast := IpAddr.V4 0 0 0 0 }

/-- Address family tag `AF_INET` (IPv4). The numeric value is the common
POSIX one; only its distinctness from `AF_INET6` matters here. -/
def AF_INET : Nat := 2

/-- Address family tag `AF_INET6` (IPv6). -/
def AF_INET6 : Nat := 10

/-- Embedding of one socket-address memory block. The source reads the same
bytes under up to three layouts, dispatching on `sa_family`:
`sin_addr_s_addr` is the `u32` seen through the `sockaddr_in` view, and
`s6_addr0` … `s6_addr7` are the eight `u16` groups seen through the
`sockaddr_in6` view. -/
structure sockaddr where
  sa_family : Nat
  sin_addr_s_addr : Nat
  s6_addr0 : Nat
  s6_addr1 : Nat
  s6_addr2 : Nat
  s6_addr3 : Nat
  s6_addr4 : Nat
  s6_addr5 : Nat
  s6_addr6 : Nat
  s6_addr7 : Nat
deriving DecidableEq, Repr

/-- The per-group byte swap applied by the decoder to each stored `u16`
group of an IPv6 address: `((g & 255) << 8) | ((g >> 8) & 255)`. -/
def swap16 (g : Nat) : Nat :=
  ((g &&& 255) <<< 8) ||| ((g >>> 8) &&& 255)

/-- Embedding of `sockaddr_to_ipaddr` (POSIX backend, lines 60–86).

Null pointer gives `none`; family `AF_INET` extracts the four octets of
`sin_addr.s_addr` least-significant byte first; family `AF_INET6` builds the
eight groups with `swap16`; any other family gives `none`.

Line 73 of the source reads `if sa.sin6_addr.s6_addr[0]==0x80fe { None }`:
this `if` is an expression whose value is discarded — it does not return
early — so control falls through to construct `Some(...)` for `fe80::`
addresses as well.  The embedding reproduces that fallthrough. -/
def sockaddr_to_ipaddr (p : Option sockaddr) : Option IpAddr :=
  match p with
  | none => none
  | some sa =>
    if sa.sa_family = AF_INET then
      some (IpAddr.V4
        ((sa.sin_addr_s_addr >>> 0) &&& 255)
        ((sa.sin_addr_s_addr >>> 8) &&& 255)
        ((sa.sin_addr_s_addr >>> 16) &&& 255)
        ((sa.sin_addr_s_addr >>> 24) &&& 255))
    else if sa.sa_family = AF_INET6 then
      some (IpAddr.V6
        (swap16 sa.s6_addr0) (swap16 sa.s6_addr1)
        (swap16 sa.s6_addr2) (swap16 sa.s6_addr3)
        (swap16 sa.s6_addr4) (swap16 sa.s6_addr5)
        (swap16 sa.s6_addr6) (swap16 sa.s6_addr7))
    else none

/-- Decides whether a byte is a UTF-8 continuation byte (`0x80`–`0xBF`). -/
def isUtf8Cont (b : Nat) : Bool :=
  0x80 ≤ b && b ≤ 0xBF

/-- UTF-8 validation/decoding of a byte sequence into characters, following
the standard table (RFC 3629): used to embed Rust's `str::from_utf8`. -/
def utf8Chars : List Nat → Option (List Char)
  | [] => some []
  | b :: rest =>
    if b ≤ 0x7F then
      (utf8Chars rest).map (fun cs => Char.ofNat b :: cs)
    else if 0xC2 ≤ b && b ≤ 0xDF then
      match rest with
      | b1 :: rest2 =>
        if isUtf8Cont b1 then
          (utf8Chars rest2).map (fun cs =>
            Char.ofNat ((b - 0xC0) * 64 + (b1 - 0x80)) :: cs)
        else none
      | [] => none
    else if 0xE0 ≤ b && b ≤ 0xEF then
      match rest with
      | b1 :: b2 :: rest2 =>
        let lo1 := if b = 0xE0 then 0xA0 else 0x80
        let hi1 := if b = 0xED then 0x9F else 0xBF
        if lo1 ≤ b1 && b1 ≤ hi1 && isUtf8Cont b2 then
          (utf8Chars rest2).map (fun cs =>
            Char.ofNat ((b - 0xE0) * 4096 + (b1 - 0x80) * 64 + (b2 - 0x80)) :: cs)
        else none
      | _ => none
    else if 0xF0 ≤ b && b ≤ 0xF4 then
      match rest with
      | b1 :: b2 :: b3 :: rest2 =>
        let lo1 := if b = 0xF0 then 0x90 else 0x80
        let hi1 := if b = 0xF4 then 0x8F else 0xBF
        if lo1 ≤ b1 && b1 ≤ hi1 && isUtf8Cont b2 && isUtf8Cont b3 then
          (utf8Chars rest2).map (fun cs =>
            Char.ofNat ((b - 0xF0) * 262144 + (b1 - 0x80) * 4096 +
              (b2 - 0x80) * 64 + (b3 - 0x80)) :: cs)
        else none
      | _ => none
    else none

/-- Embedding of `str::from_utf8` over the bytes of a C string: `some`
exactly when the bytes are valid UTF-8. -/
def from_utf8 (bytes : List Nat) : Option String :=
  (utf8Chars bytes).map (fun cs => String.mk cs)

/-- Panic message of `Result::unwrap` on the `Err` of `str::from_utf8`. -/
def unwrap_panic_msg : String :=
  "called Result::unwrap() on an Err value: Utf8Error"

/-- Embedding of one `ifaddrs` node of the list returned by the native
POSIX `getifaddrs` call.  `ifa_name` holds the bytes of the null-terminated
name (up to, excluding, the terminator).  `ifa_ifu` is the broadcast slot of
the union as read on Linux-family systems; `ifa_dstaddr` is the same union
slot as read on BSD-family systems (point-to-point destination). -/
structure posix_ifaddrs where
  ifa_name : List Nat
  ifa_flags : Nat
  ifa_addr : Option sockaddr
  ifa_netmask : Option sockaddr
  ifa_ifu : Option sockaddr
  ifa_dstaddr : Option sockaddr
deriving Repr

/-- Embedding of `do_broadcast` compiled for Linux/Android/NaCl: decode the
`ifa_ifu` union field, defaulting to `0.0.0.0` when decoding fails. -/
def do_broadcast_linux (ifaddr : posix_ifaddrs) : IpAddr :=
  match sockaddr_to_ipaddr ifaddr.ifa_ifu with
  | some a => a
  | none => IpAddr.V4 0 0 0 0

/-- Embedding of `do_broadcast` compiled for FreeBSD/macOS/iOS: decode the
`ifa_dstaddr` field, defaulting to `0.0.0.0` when decoding fails. -/
def do_broadcast_bsd (ifaddr : posix_ifaddrs) : IpAddr :=
  match sockaddr_to_ipaddr ifaddr.ifa_dstaddr with
  | some a => a
  | none => IpAddr.V4 0 0 0 0

/-- Panic message of the POSIX backend when the native call reports
failure. -/
def posix_fatal_msg : String :=
  "failed to retrieve interface details from getifaddrs()"

/-- Embedding of the list walk of `getifaddrs_posix::getifaddrs`
(lines 116–142), per node in order:
1. skip the node when `ifa_addr` is null;
2. decode the name bytes with `str::from_utf8(..).unwrap()` — invalid UTF-8
   panics (`Except.error`), aborting the walk;
3. decode `ifa_addr`; `None` skips the node;
4. decode `ifa_netmask`; `None` leaves the sentinel `0.0.0.0`;
5. when bit 2 (`IFF_BROADCAST`) of `ifa_flags` is set, derive the broadcast
   via the platform's `do_broadcast` (passed in as `db`);
6. push the record. -/
def posixWalk (db : posix_ifaddrs → IpAddr) : List posix_ifaddrs → Except String (List IfAddr)
  | [] => Except.ok []
  | n :: rest =>
    if n.ifa_addr.isNone then posixWalk db rest
    else
      match from_utf8 n.ifa_name with
      | none => Except.error unwrap_panic_msg
      | some s =>
        match sockaddr_to_ipaddr n.ifa_addr with
        | none => posixWalk db rest
        | some a =>
          let netmask :=
            match sockaddr_to_ipaddr n.ifa_netmask with
            | some m => m
            | none => IfAddr.new.netmask
          let broadcast :=
            if n.ifa_flags &&& 2 ≠ 0 then db n else IfAddr.new.broadcast
          match posixWalk db rest with
          | Except.error e => Except.error e
          | Except.ok items =>
            Except.ok ({ name := IfAddr.new.name ++ s
                         addr := a
                         netmask := netmask
                         broadcast := broadcast } :: items)

/-- Embedding of `getifaddrs_posix::getifaddrs`, parameterised by the
platform's `do_broadcast` variant.  The environment is the result of the
native call: `none` models the `-1` failure (panic before any list was
acquired); `some nodes` models a successfully acquired list.  The second
component counts the `freeifaddrs` release calls executed: the single
unconditional release at line 143 runs only when the walk returns normally —
a panic inside the walk unwinds past it. -/
def getifaddrs_posix_with (db : posix_ifaddrs → IpAddr)
    (env : Option (List posix_ifaddrs)) : Except String (List IfAddr) × Nat :=
  match env with
  | none => (Except.error posix_fatal_msg, 0)
  | some nodes =>
    match posixWalk db nodes with
    | Except.error e => (Except.error e, 0)
    | Except.ok items => (Except.ok items, 1)

/-- The POSIX backend as compiled on Linux-family targets. -/
def getifaddrs_posix_linux (env : Option (List posix_ifaddrs)) :
    Except String (List IfAddr) × Nat :=
  getifaddrs_posix_with do_broadcast_linux env

/-- The POSIX backend as compiled on BSD-family targets. -/
def getifaddrs_posix_bsd (env : Option (List posix_ifaddrs)) :
    Except String (List IfAddr) × Nat :=
  getifaddrs_posix_with do_broadcast_bsd env

/-- Embedding of `IP_ADAPTER_UNICAST_ADDRESS`: only the fields the walk
reads — the (possibly null) `Address.lpSockaddr` pointer.  The `Next` chain
is represented by list structure. -/
structure IP_ADAPTER_UNICAST_ADDRESS where
  lpSockaddr : Option sockaddr
deriving Repr

/-- Embedding of `IP_ADAPTER_ADDRESSES`: the adapter's null-terminated name
bytes and its unicast-address chain. -/
structure IP_ADAPTER_ADDRESSES where
  AdapterName : List Nat
  FirstUnicastAddress : List IP_ADAPTER_UNICAST_ADDRESS
deriving Repr

/-- Windows status code `ERROR_SUCCESS`. -/
def ERROR_SUCCESS : Nat := 0

/-- Windows status code `ERROR_BUFFER_OVERFLOW` (matched as literal `111`
in the source). -/
def ERROR_BUFFER_OVERFLOW : Nat := 111

/-- Panic message of the Windows backend on a fatal
`GetAdaptersAddresses` status code. -/
def win_fatal_msg (retcode : Nat) : String :=
  "GetAdaptersAddresses() failed with error code " ++ toString retcode

/-- Panic message of the Windows backend when `malloc` returns null. -/
def win_alloc_msg : String :=
  "Failed to allocate buffer in getifaddrs()"

/-- Embedding of the inner unicast-address loop of
`getifaddrs_windows::getifaddrs` (lines 237–275), per node in order:
1. decode the adapter name with `str::from_utf8(..).unwrap()` — invalid
   UTF-8 panics, aborting the walk;
2. a null `lpSockaddr` skips the node;
3. family `AF_INET`: skip when the low 16 bits of `s_addr` equal `0xfea9`
   (the stored form of a leading `169.254`), otherwise build the v4 octets
   least-significant byte first;
4. family `AF_INET6`: skip when the first stored group equals `0x80fe` (the
   stored form of a leading `fe80`), otherwise build the groups with
   `swap16`;
5. any other family skips the node;
6. push the record (netmask and broadcast stay at the `IfAddr::new()`
   sentinels). -/
def winProcessUnicast (nameBytes : List Nat) :
    List IP_ADAPTER_UNICAST_ADDRESS → Except String (List IfAddr)
  | [] => Except.ok []
  | n :: rest =>
    match from_utf8 nameBytes with
    | none => Except.error unwrap_panic_msg
    | some s =>
      match n.lpSockaddr with
      | none => winProcessUnicast nameBytes rest
      | some sa =>
        if sa.sa_family = AF_INET then
          if sa.sin_addr_s_addr &&& 65535 = 0xfea9 then
            winProcessUnicast nameBytes rest
          else
            match winProcessUnicast nameBytes rest with
            | Except.error e => Except.error e
            | Except.ok items =>
              Except.ok ({ IfAddr.new with
                           name := IfAddr.new.name ++ s
                           addr := IpAddr.V4
                             ((sa.sin_addr_s_addr >>> 0) &&& 255)
                             ((sa.sin_addr_s_addr >>> 8) &&& 255)
                             ((sa.sin_addr_s_addr >>> 16) &&& 255)
                             ((sa.sin_addr_s_addr >>> 24) &&& 255) } :: items)
        else if sa.sa_family = AF_INET6 then
          if sa.s6_addr0 = 0x80fe then
            winProcessUnicast nameBytes rest
          else
            match winProcessUnicast nameBytes rest with
            | Except.error e => Except.error e
            | Except.ok items =>
              Except.ok ({ IfAddr.new with
                           name := IfAddr.new.name ++ s
                           addr := IpAddr.V6
                             (swap16 sa.s6_addr0) (swap16 sa.s6_addr1)
                             (swap16 sa.s6_addr2) (swap16 sa.s6_addr3)
                             (swap16 sa.s6_addr4) (swap16 sa.s6_addr5)
                             (swap16 sa.s6_addr6) (swap16 sa.s6_addr7) } :: items)
        else winProcessUnicast nameBytes rest

/-- Embedding of the outer adapter loop (lines 225–276): concatenate the
records of each adapter's unicast chain, propagating a panic. -/
def winWalk : List IP_ADAPTER_ADDRESSES → Except String (List IfAddr)
  | [] => Except.ok []
  | a :: rest =>
    match winProcessUnicast a.AdapterName a.FirstUnicastAddress with
    | Except.error e => Except.error e
    | Except.ok items =>
      match winWalk rest with
      | Except.error e => Except.error e
      | Except.ok more => Except.ok (items ++ more)

/-- Environment for one iteration of the Windows buffer loop: whether the
`malloc` of the requested size succeeds, the status code returned by
`GetAdaptersAddresses`, and the value the call leaves in the by-reference
`buffersize` argument (the call may report the required size back). -/
structure WinAttempt where
  mallocOk : Bool
  retcode : Nat
  sizeOut : Nat
deriving Repr

/-- Acquisition/release instrumentation: how many buffer allocations
succeeded and how many `free` calls were executed. -/
structure Counts where
  mallocs : Nat
  frees : Nat
deriving DecidableEq, Repr

/-- Embedding of the buffer loop of `getifaddrs_windows::getifaddrs`
(lines 201–223).  `size` is the current requested `buffersize`; `c` the
instrumentation counters.  Per iteration: allocate (null result panics with
the buffer counters unchanged); on `ERROR_SUCCESS` exit the loop retaining
the populated buffer (the final `buffersize` value is returned); on
`ERROR_BUFFER_OVERFLOW` (111) free the buffer, double `buffersize` (as
updated by the call) and retry; any other status panics — without freeing
the buffer just allocated.  `none` models an environment that never lets
the loop terminate within the supplied attempts. -/
def winBufLoop : List WinAttempt → Nat → Counts → Option (Except String Nat × Counts)
  | [], _, _ => none
  | a :: rest, _, c =>
    if a.mallocOk then
      if a.retcode = ERROR_SUCCESS then
        some (Except.ok a.sizeOut, { mallocs := c.mallocs + 1, frees := c.frees })
      else if a.retcode = ERROR_BUFFER_OVERFLOW then
        winBufLoop rest (a.sizeOut * 2)
          { mallocs := c.mallocs + 1, frees := c.frees + 1 }
      else
        some (Except.error (win_fatal_msg a.retcode),
          { mallocs := c.mallocs + 1, frees := c.frees })
    else
      some (Except.error win_alloc_msg, c)

/-- Environment of one Windows enumeration: the per-attempt behaviour of
`GetAdaptersAddresses` and, on success, the adapter list found in the
buffer. -/
structure WinEnv where
  calls : List WinAttempt
  adapters : List IP_ADAPTER_ADDRESSES

/-- Combination of a finished buffer loop with the adapter walk: a loop
panic propagates; a walk panic unwinds past the final `free` (line 277);
a normal walk is followed by exactly one final `free`. -/
def winFinish (loopResult : Option (Except String Nat × Counts))
    (adapters : List IP_ADAPTER_ADDRESSES) :
    Option (Except String (List IfAddr) × Counts) :=
  match loopResult with
  | none => none
  | some (Except.error e, c) => some (Except.error e, c)
  | some (Except.ok _, c) =>
    match winWalk adapters with
    | Except.error e => some (Except.error e, c)
    | Except.ok items =>
      some (Except.ok items, { mallocs := c.mallocs, frees := c.frees + 1 })

/-- Embedding of `getifaddrs_windows::getifaddrs`: run the buffer loop
starting from the initial `buffersize` of 15000, then walk the adapters and
execute the final `free`. -/
def getifaddrs_windows (env : WinEnv) :
    Option (Except String (List IfAddr) × Counts) :=
  winFinish (winBufLoop env.calls 15000 { mallocs := 0, frees := 0 }) env.adapters

/-- Predicate for an IPv4 address in the link-local range `169.254.0.0/16`. -/
def Ipv4LinkLocal : IpAddr → Prop
  | IpAddr.V4 a b _ _ => a = 169 ∧ b = 254
  | IpAddr.V6 _ _ _ _ _ _ _ _ => False

/-- The socket address `192.168.1.1`: the four octets `c0 a8 01 01` sit in
the `u32` field in network byte order, so on a little-endian host the field
reads `0x0101A8C0`. -/
def sa_v4_192_168_1_1 : sockaddr :=
  ⟨AF_INET, 0x0101A8C0, 0, 0, 0, 0, 0, 0, 0, 0⟩

/-- The socket address `10.0.0.1` (stored `u32` value `0x0100000A`). -/
def sa_v4_10_0_0_1 : sockaddr :=
  ⟨AF_INET, 0x0100000A, 0, 0, 0, 0, 0, 0, 0, 0⟩

/-- The socket address `169.254.1.1` (stored `u32` value `0x0101FEA9`). -/
def sa_v4_169_254_1_1 : sockaddr :=
  ⟨AF_INET, 0x0101FEA9, 0, 0, 0, 0, 0, 0, 0, 0⟩

/-- The socket address `2001:db8::1`: each `u16` group is stored
byte-swapped relative to presentation, so the groups read
`0x0120, 0xB80D, 0, …, 0, 0x0100`. -/
def sa_v6_2001_db8_1 : sockaddr :=
  ⟨AF_INET6, 0, 0x0120, 0xB80D, 0, 0, 0, 0, 0, 0x0100⟩

/-- The socket address `fe80::1` (IPv6 link-local): first stored group is
`0x80FE`, last is `0x0100`. -/
def sa_v6_fe80_1 : sockaddr :=
  ⟨AF_INET6, 0, 0x80FE, 0, 0, 0, 0, 0, 0, 0x0100⟩

/-- Name bytes of a conventional interface name, the ASCII of `eth0`. -/
def eth0_bytes : List Nat := [101, 116, 104, 48]

/-- A POSIX node carrying the link-local address `fe80::1`. -/
def node_fe80 : posix_ifaddrs :=
  ⟨eth0_bytes, 0, some sa_v6_fe80_1, none, none, none⟩

/-- A POSIX node carrying the link-local address `169.254.1.1`. -/
def node_linklocal_v4 : posix_ifaddrs :=
  ⟨eth0_bytes, 0, some sa_v4_169_254_1_1, none, none, none⟩

/-- A POSIX node whose name byte `0xFF` is not valid UTF-8 but whose
address decodes fine. -/
def node_invalid_name : posix_ifaddrs :=
  ⟨[0xFF], 0, some sa_v4_10_0_0_1, none, none, none⟩

/-- A well-formed POSIX node (`eth0`, `10.0.0.1`, null netmask, no
broadcast flag). -/
def node_plain : posix_ifaddrs :=
  ⟨eth0_bytes, 0, some sa_v4_10_0_0_1, none, none, none⟩

/-- A POSIX node with the `IFF_BROADCAST` bit set, a broadcast-union slot
holding `192.168.1.1` on the Linux view and a null BSD view. -/
def node_bcast : posix_ifaddrs :=
  ⟨eth0_bytes, 2, some sa_v4_10_0_0_1, none, some sa_v4_192_168_1_1, none⟩

/-- A Windows environment whose first call reports a fatal status code 999
after a successful allocation. -/
def envWinFatal : WinEnv := ⟨[⟨true, 999, 0⟩], []⟩

/-- A Windows environment that succeeds at once and exposes no adapters. -/
def envWinEmpty : WinEnv := ⟨[⟨true, 0, 15000⟩], []⟩

/-- A Windows environment with one adapter holding one plain unicast
address. -/
def envWinPlain : WinEnv :=
  ⟨[⟨true, 0, 15000⟩], [⟨eth0_bytes, [⟨some sa_v4_192_168_1_1⟩]⟩]⟩

/-- The record the Windows backend produces for `envWinPlain`. -/
def rec_192 : IfAddr :=
  ⟨"eth0", IpAddr.V4 192 168 1 1, IpAddr.V4 0 0 0 0, IpAddr.V4 0 0 0 0⟩

/-- An adapter whose name byte `0xFF` is not valid UTF-8 but which carries
one decodable unicast address. -/
def adapter_badname : IP_ADAPTER_ADDRESSES :=
  ⟨[0xFF], [⟨some sa_v4_192_168_1_1⟩]⟩

/-- A Windows environment that succeeds at once and exposes the bad-name
adapter. -/
def envWinBadName : WinEnv := ⟨[⟨true, 0, 15000⟩], [adapter_badname]⟩

/-! ## Helper lemmas -/

/-- Bit-level helper: masking with `255` is reduction modulo `256`. -/
theorem and255_eq (x : Nat) : x &&& 255 = x % 256 := by
  have h := Nat.and_pow_two_sub_one_eq_mod x 8
  norm_num at h
  exact h

/-- Bit-level helper: masking with `65535` is reduction modulo `65536`. -/
theorem and65535_eq (x : Nat) : x &&& 65535 = x % 65536 := by
  have h := Nat.and_pow_two_sub_one_eq_mod x 16
  norm_num at h
  exact h

/-- Bit-level helper: shifting right by `8` is division by `256`. -/
theorem shr8_eq (x : Nat) : x >>> 8 = x / 256 := by
  have h := Nat.shiftRight_eq_div_pow x 8
  norm_num at h
  exact h

/-- An address whose low 16 stored bits are not `0xfea9` cannot decode to
octets starting `169.254`. -/
theorem ll_arith (s : Nat) (h : ¬ s &&& 65535 = 0xfea9) :
    ¬((s >>> 0) &&& 255 = 169 ∧ (s >>> 8) &&& 255 = 254) := by
  rw [and65535_eq] at h
  simp only [Nat.shiftRight_zero, and255_eq, shr8_eq]
  omega

/-- No record produced by the Windows unicast loop carries an IPv4
link-local address: the `0xfea9` guard filters exactly the `169.254/16`
addresses. -/
theorem winProcessUnicast_no_ll :
  ∀ (nm : List Nat) (ns : List IP_ADAPTER_UNICAST_ADDRESS) (items : List IfAddr),
    winProcessUnicast nm ns = Except.ok items →
    ∀ r ∈ items, ¬ Ipv4LinkLocal r.addr := by
  intro nm ns
  induction ns with
  | nil =>
    intro items h r hr
    simp [winProcessUnicast] at h
    subst h
    simp at hr
  | cons n rest ih =>
    intro items h r hr
    simp only [winProcessUnicast] at h
    cases hf : from_utf8 nm with
    | none => simp only [hf] at h; simp at h
    | some s =>
      cases hsa : n.lpSockaddr with
      | none => simp only [hf, hsa] at h; exact ih items h r hr
      | some sa =>
        simp only [hf, hsa] at h
        by_cases h4 : sa.sa_family = AF_INET
        · rw [if_pos h4] at h
          by_cases hll : sa.sin_addr_s_addr &&& 65535 = 0xfea9
          · rw [if_pos hll] at h; exact ih items h r hr
          · rw [if_neg hll] at h
            cases hrest : winProcessUnicast nm rest with
            | error e => simp only [hrest] at h; simp at h
            | ok tl =>
              simp only [hrest] at h
              simp at h
              subst h
              cases hr with
              | head =>
                intro hc
                simp only [Ipv4LinkLocal] at hc
                exact ll_arith _ hll hc
              | tail _ hmem => exact ih tl hrest r hmem
        · rw [if_neg h4] at h
          by_cases h6 : sa.sa_family = AF_INET6
          · rw [if_pos h6] at h
            by_cases hfe : sa.s6_addr0 = 0x80fe
            · rw [if_pos hfe] at h; exact ih items h r hr
            · rw [if_neg hfe] at h
              cases hrest : winProcessUnicast nm rest with
              | error e => simp only [hrest] at h; simp at h
              | ok tl =>
                simp only [hrest] at h
                simp at h
                subst h
                cases hr with
                | head => intro hc; simp only [Ipv4LinkLocal] at hc
                | tail _ hmem => exact ih tl hrest r hmem
          · rw [if_neg h6] at h
            exact ih items h r hr

/-- Lifting of `winProcessUnicast_no_ll` over the adapter walk. -/
theorem winWalk_no_ll :
  ∀ (adapters : List IP_ADAPTER_ADDRESSES) (items : List IfAddr),
    winWalk adapters = Except.ok items →
    ∀ r ∈ items, ¬ Ipv4LinkLocal r.addr := by
  intro adapters
  induction adapters with
  | nil =>
    intro items h r hr
    simp [winWalk] at h
    subst h
    simp at hr
  | cons a rest ih =>
    intro items h r hr
    simp only [winWalk] at h
    cases hu : winProcessUnicast a.AdapterName a.FirstUnicastAddress with
    | error e => rw [hu] at h; simp at h
    | ok here =>
      rw [hu] at h
      cases hw : winWalk rest with
      | error e => rw [hw] at h; simp at h
      | ok more =>
        rw [hw] at h
        simp at h
        subst h
        rcases List.mem_append.mp hr with hm | hm
        · exact winProcessUnicast_no_ll _ _ _ hu r hm
        · exact ih more hw r hm

/-- Invariant of the Windows buffer loop: a successful exit has performed
exactly one more successful allocation than `free` calls. -/
theorem winBufLoop_ok_delta :
  ∀ (calls : List WinAttempt) (size : Nat) (c : Counts) (r : Nat) (c' : Counts),
    winBufLoop calls size c = some (Except.ok r, c') →
    c'.mallocs + c.frees = c'.frees + 1 + c.mallocs := by
  intro calls
  induction calls with
  | nil => intro size c r c' h; simp [winBufLoop] at h
  | cons a rest ih =>
    intro size c r c' h
    simp only [winBufLoop] at h
    by_cases hm : a.mallocOk
    · rw [if_pos hm] at h
      by_cases hs : a.retcode = ERROR_SUCCESS
      · rw [if_pos hs] at h
        simp at h
        obtain ⟨h1, h2⟩ := h
        subst h2
        simp
        omega
      · by_cases hb : a.retcode = ERROR_BUFFER_OVERFLOW
        · rw [if_neg hs, if_pos hb] at h
          have hd := ih _ _ _ _ h
          simp at hd
          omega
        · rw [if_neg hs, if_neg hb] at h
          simp at h
    · rw [if_neg hm] at h
      simp at h

/-! ## Claim theorems -/

/-- C1: the claim states that no returned record's address lies in
`fe80::/10`, link-local addresses being unconditionally excluded.  The code
contradicts its own comment (line 72, "Ignore all fe80:: addresses as these
are link locals"): the rejection at line 73 is a discarded expression, so
the POSIX backend returns the `fe80::1` record.  This theorem evaluates the
backend at the failing input. -/
theorem C1_fe80_record_returned :
  getifaddrs_posix_linux (some [node_fe80]) =
    (Except.ok [{ name := "eth0", addr := IpAddr.V6 0xFE80 0 0 0 0 0 0 1,
                  netmask := IpAddr.V4 0 0 0 0,
                  broadcast := IpAddr.V4 0 0 0 0 }], 1) := by
  rfl

/-- C2 counterexample: the POSIX backend applies no IPv4 link-local filter,
so a node carrying `169.254.1.1` yields a returned record with that
address, refuting the claim for "either backend". -/
theorem C2_posix_returns_ipv4_linklocal :
  getifaddrs_posix_linux (some [node_linklocal_v4]) =
    (Except.ok [{ name := "eth0", addr := IpAddr.V4 169 254 1 1,
                  netmask := IpAddr.V4 0 0 0 0,
                  broadcast := IpAddr.V4 0 0 0 0 }], 1) := by
  rfl

/-- C2 (amended): only the Windows backend excludes IPv4 `169.254.0.0/16`
link-local addresses — no record of a successful Windows enumeration
carries one. -/
theorem C2_windows_excludes_ipv4_linklocal :
  ∀ (env : WinEnv) (items : List IfAddr) (c : Counts),
    getifaddrs_windows env = some (Except.ok items, c) →
    ∀ r ∈ items, ¬ Ipv4LinkLocal r.addr := by
  intro env items c h
  unfold getifaddrs_windows winFinish at h
  cases hlo : winBufLoop env.calls 15000 { mallocs := 0, frees := 0 } with
  | none => rw [hlo] at h; simp at h
  | some p =>
    rw [hlo] at h
    obtain ⟨res, c0⟩ := p
    cases res with
    | error e => simp at h
    | ok r0 =>
      cases hw : winWalk env.adapters with
      | error e => rw [hw] at h; simp at h
      | ok items0 =>
        rw [hw] at h
        simp at h
        obtain ⟨h1, h2⟩ := h
        subst h1
        exact winWalk_no_ll _ _ hw

/-- C2 witness: the amended theorem applied to a concrete one-adapter
environment. -/
theorem C2_windows_excludes_ipv4_linklocal_witness :
  ¬ Ipv4LinkLocal rec_192.addr :=
  C2_windows_excludes_ipv4_linklocal envWinPlain [rec_192]
    { mallocs := 1, frees := 1 } (by rfl) rec_192 (List.Mem.head _)

/-- C3 counterexample: with an invalid-UTF-8 name on the first node and a
well-formed second node, the POSIX enumeration does not return the
remaining record — it aborts whole with the `unwrap` panic (and without
releasing the list: second component `0`). -/
theorem C3_invalid_name_fails_enumeration :
  getifaddrs_posix_linux (some [node_invalid_name, node_plain]) =
    (Except.error unwrap_panic_msg, 0) := by
  rfl

/-- C3 (amended): a record whose name bytes are not valid UTF-8 is not
silently dropped; in both backends, reaching such a record aborts the whole
enumeration with the `Result::unwrap` panic (the source calls
`str::from_utf8(name).unwrap()` in the POSIX walk and in the Windows
unicast loop).  First conjunct: a POSIX enumeration whose list starts with
a bad-name node (with non-null `ifa_addr`) returns the unwrap panic, with
no release.  Second conjunct: a Windows enumeration whose buffer loop
succeeded and whose first adapter has a bad name and a non-empty unicast
chain returns the unwrap panic, with no further release. -/
theorem C3_invalid_name_aborts :
  (∀ (db : posix_ifaddrs → IpAddr) (n : posix_ifaddrs) (rest : List posix_ifaddrs),
     n.ifa_addr.isNone = false →
     from_utf8 n.ifa_name = none →
     getifaddrs_posix_with db (some (n :: rest)) = (Except.error unwrap_panic_msg, 0)) ∧
  (∀ (env : WinEnv) (r : Nat) (c : Counts) (a : IP_ADAPTER_ADDRESSES)
     (adapters : List IP_ADAPTER_ADDRESSES) (n : IP_ADAPTER_UNICAST_ADDRESS)
     (ns : List IP_ADAPTER_UNICAST_ADDRESS),
     winBufLoop env.calls 15000 { mallocs := 0, frees := 0 } = some (Except.ok r, c) →
     env.adapters = a :: adapters →
     from_utf8 a.AdapterName = none →
     a.FirstUnicastAddress = n :: ns →
     getifaddrs_windows env = some (Except.error unwrap_panic_msg, c)) := by
  constructor
  · intro db n rest h1 h2
    have hw : posixWalk db (n :: rest) = Except.error unwrap_panic_msg := by
      simp [posixWalk, h1, h2]
    simp [getifaddrs_posix_with, hw]
  · intro env r c a adapters n ns hlo hadp hname hfu
    have hpu : winProcessUnicast a.AdapterName a.FirstUnicastAddress =
        Except.error unwrap_panic_msg := by
      rw [hfu]
      simp [winProcessUnicast, hname]
    have hw : winWalk (a :: adapters) = Except.error unwrap_panic_msg := by
      simp only [winWalk, hpu]
    simp only [getifaddrs_windows, winFinish, hlo, hadp, hw]

/-- C3 witness: the amended theorem's Windows conjunct applied at a
concrete environment with one bad-name adapter — the whole enumeration
fails with the unwrap panic (and the buffer, allocated once, is never
freed). -/
theorem C3_invalid_name_aborts_witness :
  getifaddrs_windows envWinBadName =
    some (Except.error unwrap_panic_msg, { mallocs := 1, frees := 0 }) :=
  C3_invalid_name_aborts.2 envWinBadName 15000 { mallocs := 1, frees := 0 }
    adapter_badname [] ⟨some sa_v4_192_168_1_1⟩ [] (by rfl) rfl (by decide) rfl

/-- C4: decoding the synthetic IPv4 socket address storing `192.168.1.1`
in network byte order yields exactly `192.168.1.1` (least-significant
stored byte becomes the first octet), and decoding the synthetic IPv6
structure storing `2001:db8::1` with per-group byte-swapped storage yields
exactly `2001:db8::1`. -/
theorem C4_synthetic_decoding :
  sockaddr_to_ipaddr (some sa_v4_192_168_1_1) = some (IpAddr.V4 192 168 1 1) ∧
  sockaddr_to_ipaddr (some sa_v6_2001_db8_1) =
    some (IpAddr.V6 0x2001 0x0DB8 0 0 0 0 0 0x0001) := by
  decide

/-- C5: the Windows buffer loop starts from a requested size of 15000
bytes; with a successful allocation, `ERROR_SUCCESS` exits the loop
retaining the populated buffer (no `free`), "buffer too small" (111) frees
the buffer and retries with the size variable doubled, and any other
status code is fatal (an `Except.error` panic, not a normal return). -/
theorem C5_buffer_loop_protocol :
  (∀ env : WinEnv, getifaddrs_windows env =
     winFinish (winBufLoop env.calls 15000 { mallocs := 0, frees := 0 }) env.adapters) ∧
  (∀ (a : WinAttempt) (rest : List WinAttempt) (size : Nat) (c : Counts),
     a.mallocOk = true →
     (a.retcode = ERROR_SUCCESS →
        winBufLoop (a :: rest) size c =
          some (Except.ok a.sizeOut, { mallocs := c.mallocs + 1, frees := c.frees })) ∧
     (a.retcode = ERROR_BUFFER_OVERFLOW →
        winBufLoop (a :: rest) size c =
          winBufLoop rest (a.sizeOut * 2) { mallocs := c.mallocs + 1, frees := c.frees + 1 }) ∧
     (a.retcode ≠ ERROR_SUCCESS → a.retcode ≠ ERROR_BUFFER_OVERFLOW →
        winBufLoop (a :: rest) size c =
          some (Except.error (win_fatal_msg a.retcode),
            { mallocs := c.mallocs + 1, frees := c.frees }))) := by
  refine ⟨fun env => rfl, fun a rest size c hm => ⟨?_, ?_, ?_⟩⟩
  · intro h; simp [winBufLoop, hm, h]
  · intro h; simp [winBufLoop, hm, h, ERROR_BUFFER_OVERFLOW, ERROR_SUCCESS]
  · intro h1 h2; simp [winBufLoop, hm, h1, h2]

/-- C5 witness: one "buffer too small" attempt reporting back 20000 frees
the buffer and retries with 40000 requested. -/
theorem C5_buffer_loop_protocol_witness :
  winBufLoop [⟨true, 111, 20000⟩] 15000 { mallocs := 0, frees := 0 } =
    winBufLoop [] 40000 { mallocs := 1, frees := 1 } :=
  (C5_buffer_loop_protocol.2 ⟨true, 111, 20000⟩ [] 15000
    { mallocs := 0, frees := 0 } rfl).2.1 rfl

/-- C6 counterexample: a fatal `GetAdaptersAddresses` status (999) after a
successful allocation panics without any `free`: the buffer was acquired
once (`mallocs = 1`) and released zero times (`frees = 0`), refuting
"released exactly once ... on every exit path". -/
theorem C6_fatal_path_skips_release :
  getifaddrs_windows envWinFatal =
    some (Except.error (win_fatal_msg 999), { mallocs := 1, frees := 0 }) := by
  rfl

/-- C6 (amended): on every *normally returning* enumeration the acquired
list/buffer is released exactly once — in the Windows backend every
successful allocation is matched by exactly one `free` (including the
zero-record case), and in the POSIX backend `freeifaddrs` runs exactly
once.  Panic paths after acquisition do not release. -/
theorem C6_normal_return_releases_once :
  (∀ (env : WinEnv) (items : List IfAddr) (c : Counts),
     getifaddrs_windows env = some (Except.ok items, c) → c.frees = c.mallocs) ∧
  (∀ (db : posix_ifaddrs → IpAddr) (env : Option (List posix_ifaddrs))
     (items : List IfAddr) (k : Nat),
     getifaddrs_posix_with db env = (Except.ok items, k) → k = 1) := by
  constructor
  · intro env items c h
    unfold getifaddrs_windows winFinish at h
    cases hlo : winBufLoop env.calls 15000 { mallocs := 0, frees := 0 } with
    | none => rw [hlo] at h; simp at h
    | some p =>
      rw [hlo] at h
      obtain ⟨res, c0⟩ := p
      cases res with
      | error e => simp at h
      | ok r =>
        cases hw : winWalk env.adapters with
        | error e => rw [hw] at h; simp at h
        | ok items0 =>
          rw [hw] at h
          simp at h
          obtain ⟨h1, h2⟩ := h
          have hd := winBufLoop_ok_delta _ _ _ _ _ hlo
          subst h2
          simp at hd ⊢
          omega
  · intro db env items k h
    cases env with
    | none => simp [getifaddrs_posix_with] at h
    | some nodes =>
      cases hw : posixWalk db nodes with
      | error e => simp [getifaddrs_posix_with, hw] at h
      | ok l =>
        simp [getifaddrs_posix_with, hw] at h
        exact h.2.symm

/-- C6 witness: the amended theorem applied to a successful zero-adapter
Windows enumeration, which allocates once and frees once. -/
theorem C6_normal_return_releases_once_witness :
  Counts.frees { mallocs := 1, frees := 1 } =
    Counts.mallocs { mallocs := 1, frees := 1 } :=
  C6_normal_return_releases_once.1 envWinEmpty [] { mallocs := 1, frees := 1 } (by rfl)

/-- C7: the sockaddr decoder maps a null pointer to "no value" and maps any
address family other than `AF_INET` and `AF_INET6` to "no value". -/
theorem C7_null_or_unknown_family :
  sockaddr_to_ipaddr none = none ∧
  ∀ sa : sockaddr, sa.sa_family ≠ AF_INET → sa.sa_family ≠ AF_INET6 →
    sockaddr_to_ipaddr (some sa) = none := by
  refine ⟨rfl, fun sa h1 h2 => ?_⟩
  simp [sockaddr_to_ipaddr, h1, h2]

/-- C7 witness: family tag 99 decodes to "no value". -/
theorem C7_null_or_unknown_family_witness :
  sockaddr_to_ipaddr (some ⟨99, 0, 0, 0, 0, 0, 0, 0, 0, 0⟩) = none :=
  C7_null_or_unknown_family.2 ⟨99, 0, 0, 0, 0, 0, 0, 0, 0, 0⟩ (by decide) (by decide)

/-- C8: in the POSIX walk, a node whose primary address decodes but whose
netmask fails to decode is still appended, with the netmask left at the
`IfAddr::new()` sentinel `0.0.0.0`. -/
theorem C8_netmask_sentinel_on_decode_failure :
  ∀ (db : posix_ifaddrs → IpAddr) (n : posix_ifaddrs) (rest : List posix_ifaddrs)
    (s : String) (a : IpAddr) (items : List IfAddr),
    from_utf8 n.ifa_name = some s →
    sockaddr_to_ipaddr n.ifa_addr = some a →
    sockaddr_to_ipaddr n.ifa_netmask = none →
    posixWalk db rest = Except.ok items →
    posixWalk db (n :: rest) =
      Except.ok ({ name := IfAddr.new.name ++ s, addr := a,
                   netmask := IfAddr.new.netmask,
                   broadcast := if n.ifa_flags &&& 2 ≠ 0 then db n
                                else IfAddr.new.broadcast } :: items) := by
  intro db n rest s a items h1 h2 h3 h4
  have hne : n.ifa_addr.isNone = false := by
    cases hc : n.ifa_addr with
    | none => rw [hc] at h2; simp [sockaddr_to_ipaddr] at h2
    | some v => simp [hc]
  simp [posixWalk, hne, h1, h2, h3, h4]

/-- C8 witness: a concrete node with a null netmask is appended with the
sentinel netmask. -/
theorem C8_netmask_sentinel_on_decode_failure_witness :
  posixWalk do_broadcast_linux [node_plain] =
    Except.ok [{ name := IfAddr.new.name ++ "eth0", addr := IpAddr.V4 10 0 0 1,
                 netmask := IfAddr.new.netmask,
                 broadcast := if node_plain.ifa_flags &&& 2 ≠ 0 then do_broadcast_linux node_plain
                              else IfAddr.new.broadcast }] :=
  C8_netmask_sentinel_on_decode_failure do_broadcast_linux node_plain [] "eth0"
    (IpAddr.V4 10 0 0 1) [] (by decide) (by decide) (by decide) rfl

/-- C9: in the POSIX backend, the appended record's broadcast field is
derived only when bit 2 (`IFF_BROADCAST`) of the flag bitset is set — from
the `ifa_ifu` broadcast-union field under the Linux-family `do_broadcast`,
and from the `ifa_dstaddr` point-to-point destination field under the
BSD-family `do_broadcast` — and equals the sentinel `0.0.0.0` when the flag
is absent or that field fails to decode. -/
theorem C9_broadcast_derivation :
  ∀ (n : posix_ifaddrs) (rest : List posix_ifaddrs) (s : String) (a : IpAddr)
    (itemsL itemsB : List IfAddr),
    from_utf8 n.ifa_name = some s →
    sockaddr_to_ipaddr n.ifa_addr = some a →
    posixWalk do_broadcast_linux rest = Except.ok itemsL →
    posixWalk do_broadcast_bsd rest = Except.ok itemsB →
    (posixWalk do_broadcast_linux (n :: rest) =
       Except.ok ({ name := IfAddr.new.name ++ s, addr := a,
                    netmask := match sockaddr_to_ipaddr n.ifa_netmask with
                               | some m => m
                               | none => IfAddr.new.netmask,
                    broadcast := if n.ifa_flags &&& 2 ≠ 0 then
                                   match sockaddr_to_ipaddr n.ifa_ifu with
                                   | some b => b
                                   | none => IfAddr.new.broadcast
                                 else IfAddr.new.broadcast } :: itemsL)) ∧
    (posixWalk do_broadcast_bsd (n :: rest) =
       Except.ok ({ name := IfAddr.new.name ++ s, addr := a,
                    netmask := match sockaddr_to_ipaddr n.ifa_netmask with
                               | some m => m
                               | none => IfAddr.new.netmask,
                    broadcast := if n.ifa_flags &&& 2 ≠ 0 then
                                   match sockaddr_to_ipaddr n.ifa_dstaddr with
                                   | some b => b
                                   | none => IfAddr.new.broadcast
                                 else IfAddr.new.broadcast } :: itemsB)) := by
  intro n rest s a itemsL itemsB h1 h2 h3 h4
  have hne : n.ifa_addr.isNone = false := by
    cases hc : n.ifa_addr with
    | none => rw [hc] at h2; simp [sockaddr_to_ipaddr] at h2
    | some v => simp [hc]
  constructor
  · simp [posixWalk, hne, h1, h2, h3, do_broadcast_linux, IfAddr.new]
  · simp [posixWalk, hne, h1, h2, h4, do_broadcast_bsd, IfAddr.new]

/-- C9 witness: a broadcast-capable node whose Linux union slot holds
`192.168.1.1` and whose BSD slot is null. -/
theorem C9_broadcast_derivation_witness :
  (posixWalk do_broadcast_linux [node_bcast] =
     Except.ok [{ name := IfAddr.new.name ++ "eth0", addr := IpAddr.V4 10 0 0 1,
                  netmask := match sockaddr_to_ipaddr node_bcast.ifa_netmask with
                             | some m => m
                             | none => IfAddr.new.netmask,
                  broadcast := if node_bcast.ifa_flags &&& 2 ≠ 0 then
                                 match sockaddr_to_ipaddr node_bcast.ifa_ifu with
                                 | some b => b
                                 | none => IfAddr.new.broadcast
                               else IfAddr.new.broadcast }]) ∧
  (posixWalk do_broadcast_bsd [node_bcast] =
     Except.ok [{ name := IfAddr.new.name ++ "eth0", addr := IpAddr.V4 10 0 0 1,
                  netmask := match sockaddr_to_ipaddr node_bcast.ifa_netmask with
                             | some m => m
                             | none => IfAddr.new.netmask,
                  broadcast := if node_bcast.ifa_flags &&& 2 ≠ 0 then
                                 match sockaddr_to_ipaddr node_bcast.ifa_dstaddr with
                                 | some b => b
                                 | none => IfAddr.new.broadcast
                               else IfAddr.new.broadcast }]) :=
  C9_broadcast_derivation node_bcast [] "eth0" (IpAddr.V4 10 0 0 1) [] []
    (by decide) (by decide) rfl rfl

/-- C10: in the Windows unicast walk, a node whose `lpSockaddr` pointer is
null appends no record and causes no panic — the walk continues with the
remaining nodes exactly as if the node were absent. -/
theorem C10_null_sockaddr_skipped :
  ∀ (nameBytes : List Nat) (s : String) (n : IP_ADAPTER_UNICAST_ADDRESS)
    (rest : List IP_ADAPTER_UNICAST_ADDRESS),
    from_utf8 nameBytes = some s →
    n.lpSockaddr = none →
    winProcessUnicast nameBytes (n :: rest) = winProcessUnicast nameBytes rest := by
  intro nb s n rest h1 h2
  simp [winProcessUnicast, h1, h2]

/-- C10 witness: a concrete null-sockaddr node on an adapter named `eth0`
is skipped. -/
theorem C10_null_sockaddr_skipped_witness :
  winProcessUnicast eth0_bytes [⟨none⟩] = winProcessUnicast eth0_bytes [] :=
  C10_null_sockaddr_skipped eth0_bytes "eth0" ⟨none⟩ [] (by decide) rfl
